import Mathlib

/-!
Verification of `src/tools/validate_paths.py` (tutor-bot metadata validator).

The Python program is shallowly embedded: JSON values become the inductive
`Json`, Python dicts become association lists with unique-key lookup
semantics, the filesystem becomes an explicit read-only structure `FS`,
and code that can raise a Python exception is modelled in `Except PyErr`.
The catch-all handlers of the source (`except:` in the structural checks,
`except Exception: sys.exit(1)` in `validate_json_file`) are modelled by
mapping any error to the documented fallback (`false`, resp. `Except.error ()`
standing for process exit status 1).
-/

/-- A JSON value as produced by `json.load` (floats are not needed by any
validated field and are omitted from the embedding). -/
inductive Json where
  | null : Json
  | bool (b : Bool) : Json
  | int (n : Int) : Json
  | str (s : String) : Json
  | arr (xs : List Json) : Json
  | obj (kvs : List (String × Json)) : Json

/-- A Python dict loaded from JSON: string keys to JSON values. -/
abbrev PyDict := List (String × Json)

/-- The Python exceptions the embedded code can raise. -/
inductive PyErr where
  | keyErr : PyErr
  | attributeErr : PyErr
  | typeErr : PyErr
  | fileNotFoundErr : PyErr
deriving DecidableEq

/-- Outcome of opening a path and parsing it as JSON: the file is missing or
unreadable, the bytes are not valid JSON, or a JSON value was parsed. -/
inductive ReadResult where
  | noFile : ReadResult
  | badJson : ReadResult
  | json (j : Json) : ReadResult

/-- Read-only filesystem abstraction.  `listdir d` is `os.listdir(d)`
(`none` models the `FileNotFoundError` / `NotADirectoryError` raised when
`d` is not a listable directory); `isFile p` is `Path(p).exists() and
Path(p).is_file()`; `read p` is the outcome of `open(p)` + `json.load`. -/
structure FS where
  listdir : String → Option (List String)
  isFile : String → Bool
  read : String → ReadResult

/-- One violation, exactly as the Python code builds it:
`(field_name, error_message, document_id)`. -/
abbrev Violation := String × String × Json

/-- One declared-path entry `(attribute_name, path_value, document_id)` as
produced by `extract_paths_from_document`. -/
abbrev PathEntry := String × Json × Json

/-- Dict lookup (`d[k]` when the key is present, else `none`).  Python dicts
have unique keys, so first-match lookup on the association list is faithful. -/
def lookup (kvs : PyDict) (k : String) : Option Json :=
  (kvs.find? (fun kv => kv.1 == k)).map (fun kv => kv.2)

/-- Python `k in d` for a dict. -/
def hasKey (kvs : PyDict) (k : String) : Bool :=
  (lookup kvs k).isSome

/-- Python `d.get(k, default)`. -/
def pyGetD (kvs : PyDict) (k : String) (d : Json) : Json :=
  (lookup kvs k).getD d

/-- Python `d.get(k)` (default `None`). -/
def pyGet (kvs : PyDict) (k : String) : Json :=
  pyGetD kvs k Json.null

/-- Is the value Python `None`? -/
def isNull : Json → Bool
  | .null => true
  | _ => false

/-- Python `isinstance(v, str)` for a JSON-loaded value. -/
def isStrB : Json → Bool
  | .str _ => true
  | _ => false

/-- Python `isinstance(v, dict)` for a JSON-loaded value. -/
def isObjB : Json → Bool
  | .obj _ => true
  | _ => false

/-- Python `isinstance(v, list)` for a JSON-loaded value. -/
def isArrB : Json → Bool
  | .arr _ => true
  | _ => false

/-- Python `isinstance(v, int)` for a JSON-loaded value.  `bool` is a
subclass of `int` in Python, so booleans pass this test. -/
def pyIsInt : Json → Bool
  | .bool _ => true
  | .int _ => true
  | _ => false

/-- Python truthiness of a JSON-loaded value. -/
def pyTruthy : Json → Bool
  | .null => false
  | .bool b => b
  | .int n => n != 0
  | .str s => s != ""
  | .arr xs => !xs.isEmpty
  | .obj kvs => !kvs.isEmpty

/-- Python `type(v).__name__` for a JSON-loaded value. -/
def typeName : Json → String
  | .null => "NoneType"
  | .bool _ => "bool"
  | .int _ => "int"
  | .str _ => "str"
  | .arr _ => "list"
  | .obj _ => "dict"

/-- Python `s == v` where `s` is a `str` and `v` an arbitrary JSON value:
equal exactly when `v` is the same string. -/
def pyEqStr (s : String) : Json → Bool
  | .str t => s == t
  | _ => false

/-- Python substring test `needle in hay` on strings. -/
def strContainsSub (hay needle : String) : Bool :=
  hay.data.tails.any (fun t => needle.data.isPrefixOf t)

mutual
/-- Python `repr` of a JSON-loaded value (escaping of special characters
inside string literals is not modelled; no validated corpus value needs it). -/
def pyRepr : Json → String
  | .null => "None"
  | .bool true => "True"
  | .bool false => "False"
  | .int n => toString n
  | .str s => "\x27" ++ s ++ "\x27"
  | .arr xs => "[" ++ pyReprList xs ++ "]"
  | .obj kvs => "\x7b" ++ pyReprObj kvs ++ "\x7d"

/-- Comma-separated `repr` of list elements. -/
def pyReprList : List Json → String
  | [] => ""
  | [x] => pyRepr x
  | x :: xs => pyRepr x ++ ", " ++ pyReprList xs

/-- Comma-separated `repr` of dict items. -/
def pyReprObj : List (String × Json) → String
  | [] => ""
  | [kv] => "\x27" ++ kv.1 ++ "\x27: " ++ pyRepr kv.2
  | kv :: kvs => "\x27" ++ kv.1 ++ "\x27: " ++ pyRepr kv.2 ++ ", " ++ pyReprObj kvs
end

/-- Python `str(v)` for a JSON-loaded value. -/
def pyStr : Json → String
  | .str s => s
  | j => pyRepr j

/-- Python `needle in container` for an arbitrary JSON container: key test
for dicts, element equality for lists, substring for strings, `TypeError`
otherwise. -/
def pyContains (container : Json) (needle : String) : Except PyErr Bool :=
  match container with
  | .obj kvs => .ok (hasKey kvs needle)
  | .arr xs => .ok (xs.any (pyEqStr needle))
  | .str s => .ok (strContainsSub s needle)
  | _ => .error .typeErr

/-- Python `container[k]` with a string key: dict lookup (`KeyError` when
absent), `TypeError` on any other type. -/
def pyIndex (container : Json) (k : String) : Except PyErr Json :=
  match container with
  | .obj kvs =>
    match lookup kvs k with
    | some v => .ok v
    | none => .error .keyErr
  | _ => .error .typeErr

/-- Python iteration over a JSON value (`for x in v`): lists yield elements,
strings yield one-character strings, dicts yield their keys, anything else
raises `TypeError`. -/
def pyIterate : Json → Except PyErr (List Json)
  | .arr xs => .ok xs
  | .str s => .ok (s.data.map (fun c => Json.str (String.mk [c])))
  | .obj kvs => .ok (kvs.map (fun kv => Json.str kv.1))
  | _ => .error .typeErr

/-- Shape of the `re` pattern `\d{2}/\d{2}/\d{4}` over a character list. -/
def dateShape : List Char → Bool
  | [a, b, s1, c, d, s2, e, f, g, h] =>
    a.isDigit && b.isDigit && s1 == '/' && c.isDigit && d.isDigit &&
      s2 == '/' && e.isDigit && f.isDigit && g.isDigit && h.isDigit
  | _ => false

/-- Python `re.compile(r"^\d{2}/\d{2}/\d{4}$").match(s)` as a boolean: the
anchored pattern matches the whole string, where `$` also matches just
before one trailing newline (Python `re` semantics). -/
def datePatternMatch (s : String) : Bool :=
  dateShape s.data ||
    (s.data.getLast? == some (Char.ofNat 10) && dateShape s.data.dropLast)

/-- Python `s.endswith(suffix)`. -/
def strEndsWith (s suffix : String) : Bool :=
  suffix.data.isSuffixOf s.data

/-- `root_folder / rel` for the relative path strings declared in metadata
records (PosixPath join modelled as slash concatenation). -/
def joinPath (root rel : String) : String :=
  root ++ "/" ++ rel

/-- Split a character list on the slash separator (the semantics of
`p.split("/")`, hence of the segments pathlib exposes). -/
def splitSlash : List Char → List (List Char)
  | [] => [[]]
  | c :: cs =>
    let r := splitSlash cs
    if c == '/' then [] :: r
    else
      match r with
      | [] => [[c]]
      | h :: t => (c :: h) :: t

/-- Rejoin slash-separated segments. -/
def joinSlash : List (List Char) → List Char
  | [] => []
  | [x] => x
  | x :: xs => x ++ '/' :: joinSlash xs

/-- `Path(p).name`: the final slash-separated segment. -/
def pathName (p : String) : String :=
  String.mk ((splitSlash p.data).getLastD [])

/-- `str(Path(p).parent)`: everything before the final slash. -/
def pathParent (p : String) : String :=
  String.mk (joinSlash ((splitSlash p.data).dropLast))

/-- The five required top-level keys of `validate_gemini_json_structure`. -/
def gemini_required_fields : List String :=
  ["language", "general_description_en", "video_keywords_en",
   "video_keywords_fr", "video_segments"]

/-- The thirteen required per-segment keys of `validate_gemini_json_structure`. -/
def segment_required_fields : List String :=
  ["start_time", "end_time", "key_frame_time", "contains_math",
   "contains_diagram", "teacher_uses_pointer",
   "segment_audio_transcription_en", "segment_audio_transcription_fr",
   "extracted_text_video_frame", "short_description_video_segment_en",
   "short_description_video_segment_fr", "segment_keywords_en",
   "segment_keywords_fr"]

/-- The loop `for field in fields: if field not in data: return False`. -/
def checkFieldsIn (data : Json) : List String → Except PyErr Bool
  | [] => .ok true
  | f :: rest =>
    match pyContains data f with
    | .error e => .error e
    | .ok b => if b then checkFieldsIn data rest else .ok false

/-- The loop over `data["video_segments"]` checking every segment for the
thirteen required keys. -/
def checkSegments : List Json → Except PyErr Bool
  | [] => .ok true
  | s :: rest =>
    match checkFieldsIn s segment_required_fields with
    | .error e => .error e
    | .ok b => if b then checkSegments rest else .ok false

/-- Body of the `try:` block of `validate_gemini_json_structure` once the
JSON value `data` has been loaded. -/
def geminiStructureCheck (data : Json) : Except PyErr Bool :=
  match checkFieldsIn data gemini_required_fields with
  | .error e => .error e
  | .ok false => .ok false
  | .ok true =>
    match pyIndex data "video_segments" with
    | .error e => .error e
    | .ok vs =>
      match vs with
      | .arr segs => checkSegments segs
      | _ => .ok false

/-- `validate_gemini_json_structure(json_path)`: the bare `except:` maps
every failure (missing file, unreadable, bad JSON, any raised exception)
to `False`. -/
def validate_gemini_json_structure (r : ReadResult) : Bool :=
  match r with
  | .json d =>
    match geminiStructureCheck d with
    | .ok b => b
    | .error _ => false
  | _ => false

/-- One element of a `timestamps` list: a dict with keys
`start_timestamp` and `end_timestamp`. -/
def pdfTsEntryOk : Json → Bool
  | .obj tkvs => hasKey tkvs "start_timestamp" && hasKey tkvs "end_timestamp"
  | _ => false

/-- One element of the top-level list of a PDF-timestamp file: a dict with
`page_number` and a `timestamps` list of well-shaped entries. -/
def pdfItemOk : Json → Bool
  | .obj ikvs =>
    if hasKey ikvs "page_number" && hasKey ikvs "timestamps" then
      match lookup ikvs "timestamps" with
      | some (.arr ts) => ts.all pdfTsEntryOk
      | _ => false
    else false
  | _ => false

/-- `validate_pdf_timestamp_json_structure(json_path)`: bare `except:`
maps every failure to `False`; the body never raises once the top level is
a list, so the check is a pure shape test. -/
def validate_pdf_timestamp_json_structure (r : ReadResult) : Bool :=
  match r with
  | .json (.arr items) => items.all pdfItemOk
  | _ => false

/-- The six required keys of an associated-video-lecture sub-record. -/
def avl_required_fields : List String :=
  ["title", "is_gemini_processed_video", "original_link", "path",
   "srt_path", "pdf_page_video_ts_path"]

/-- The f-string `f"associated_video_lectures[\x7bindex\x7d]"` used as the
field prefix of every sub-record violation. -/
def avlPfx (idx : Nat) : String :=
  "associated_video_lectures[" ++ toString idx ++ "]"

/-- The required-field loop of `validate_associated_video_lecture`,
generalised over the field list for the proofs below. -/
def missingOf (vkvs : PyDict) (pfx : String) (did : Json)
    (fields : List String) : List Violation :=
  fields.filterMap (fun f =>
    if hasKey vkvs f then none
    else some (pfx ++ "." ++ f, "required field missing", did))

/-- The title rule of `validate_associated_video_lecture`. -/
def avlTitleErrs (vkvs : PyDict) (pfx : String) (did : Json) : List Violation :=
  match lookup vkvs "title" with
  | some v =>
    if isNull v then []
    else if strContainsSub (pyStr v) "_" then
      [(pfx ++ ".title", "cannot contain underscore characters", did)]
    else []
  | none => []

/-- The original-link rule of `validate_associated_video_lecture`. -/
def avlLinkErrs (vkvs : PyDict) (pfx : String) (did : Json) : List Violation :=
  match lookup vkvs "original_link" with
  | some v =>
    if isNull v then []
    else
      match v with
      | .str s =>
        if strContainsSub s "mediaspace" then []
        else [(pfx ++ ".original_link",
               "must be null or contain \x27mediaspace\x27", did)]
      | _ => [(pfx ++ ".original_link",
               "must be null or contain \x27mediaspace\x27", did)]
  | none => []

/-- The srt rule of `validate_associated_video_lecture`: the suffix test
and, only in its `else` branch, the existence test. -/
def avlSrtErrs (vkvs : PyDict) (pfx : String) (did : Json)
    (fs : FS) (root : String) : List Violation :=
  match lookup vkvs "srt_path" with
  | some v =>
    if isNull v then []
    else
      match v with
      | .str s =>
        if strEndsWith s ".srt" then
          if fs.isFile (joinPath root s) then []
          else [(pfx ++ ".srt_path", "file does not exist", did)]
        else [(pfx ++ ".srt_path", "must be null or end with \x27.srt\x27", did)]
      | _ => [(pfx ++ ".srt_path", "must be null or end with \x27.srt\x27", did)]
  | none => []

/-- The pdf-timestamp rule of `validate_associated_video_lecture`:
`root_folder / value` raises `TypeError` for a non-string value; otherwise
existence is checked first and the shape check runs only in the `elif`. -/
def avlPdfErrs (vkvs : PyDict) (pfx : String) (did : Json)
    (fs : FS) (root : String) : Except PyErr (List Violation) :=
  match lookup vkvs "pdf_page_video_ts_path" with
  | some v =>
    if isNull v then .ok []
    else
      match v with
      | .str s =>
        .ok (if fs.isFile (joinPath root s) then
              if validate_pdf_timestamp_json_structure (fs.read (joinPath root s)) then []
              else [(pfx ++ ".pdf_page_video_ts_path", "invalid JSON structure", did)]
             else [(pfx ++ ".pdf_page_video_ts_path", "file does not exist", did)])
      | _ => .error .typeErr
  | none => .ok []

/-- `validate_associated_video_lecture(video, doc_id, index, root_folder)`.
Violations accumulate in source order; a raised exception discards them. -/
def validate_associated_video_lecture (vkvs : PyDict) (did : Json) (idx : Nat)
    (fs : FS) (root : String) : Except PyErr (List Violation) :=
  let pfx := avlPfx idx
  match avlPdfErrs vkvs pfx did fs root with
  | .error e => .error e
  | .ok pe =>
    .ok (missingOf vkvs pfx did avl_required_fields ++
         avlTitleErrs vkvs pfx did ++
         avlLinkErrs vkvs pfx did ++
         avlSrtErrs vkvs pfx did fs root ++ pe)

/-- The `week` rule: present and non-null values must satisfy
`isinstance(week, int)` (which booleans do). -/
def weekErrs (kvs : PyDict) (did : Json) : List Violation :=
  match lookup kvs "week" with
  | some v =>
    if isNull v then []
    else if pyIsInt v then []
    else [("week", "must be an integer or null, got: " ++ typeName v, did)]
  | none => []

/-- One iteration of the `number` / `sub_number` string-type rule. -/
def numErrsFor (kvs : PyDict) (did : Json) (fld : String) : List Violation :=
  match lookup kvs fld with
  | some v =>
    if isNull v then []
    else if isStrB v then []
    else [(fld, "must be a string or null, got: " ++ typeName v, did)]
  | none => []

/-- The `number` and `sub_number` rules, in loop order. -/
def numsErrs (kvs : PyDict) (did : Json) : List Violation :=
  numErrsFor kvs did "number" ++ numErrsFor kvs did "sub_number"

/-- The `model` closed-enumeration rule. -/
def modelErrs (kvs : PyDict) (did : Json) : List Violation :=
  match lookup kvs "model" with
  | some v =>
    if isNull v then []
    else if ["gemini-2.5-flash", "gemini-2.5-pro"].any (fun m => pyEqStr m v) then []
    else [("model",
      "must be one of [\x27gemini-2.5-flash\x27, \x27gemini-2.5-pro\x27] or null, got: "
        ++ pyStr v, did)]
  | none => []

/-- The path half of the `video_lecture` conditional rule:
`doc["path"].endswith(".json")` raises `AttributeError` when the present,
non-null value is not a string. -/
def vlPathCheck (kvs : PyDict) (did : Json) : Except PyErr (List Violation) :=
  match lookup kvs "path" with
  | some v =>
    if isNull v then .ok []
    else
      match v with
      | .str s =>
        .ok (if strEndsWith s ".json" then []
             else [("path", "must end with \x27.json\x27 when subtype is \x27video_lecture\x27", did)])
      | _ => .error .attributeErr
  | none => .ok []

/-- The is-video half of the `video_lecture` conditional rule. -/
def vlIsVideoCheck (kvs : PyDict) (did : Json) : List Violation :=
  match lookup kvs "is_video" with
  | some (.bool true) => []
  | some _ => [("is_video", "must be true when subtype is \x27video_lecture\x27", did)]
  | none => []

/-- The `video_lecture` conditional rule of the first (shadowed) textual
definition: gated on `subtype == "video_lecture" and not doc.get("is_qa")`. -/
def vlErrs1 (kvs : PyDict) (did : Json) : Except PyErr (List Violation) :=
  if pyEqStr "video_lecture" (pyGet kvs "subtype") && !(pyTruthy (pyGet kvs "is_qa")) then
    match vlPathCheck kvs did with
    | .error e => .error e
    | .ok pe => .ok (pe ++ vlIsVideoCheck kvs did)
  else .ok []

/-- The `video_lecture` conditional rule of the second (effective) textual
definition: gated on `subtype == "video_lecture"` alone. -/
def vlErrs2 (kvs : PyDict) (did : Json) : Except PyErr (List Violation) :=
  if pyEqStr "video_lecture" (pyGet kvs "subtype") then
    match vlPathCheck kvs did with
    | .error e => .error e
    | .ok pe => .ok (pe ++ vlIsVideoCheck kvs did)
  else .ok []

/-- One iteration of the `from` / `until` date-format rule. -/
def dateErrsFor (kvs : PyDict) (did : Json) (fld : String) : List Violation :=
  match lookup kvs fld with
  | some v =>
    if isNull v then []
    else
      match v with
      | .str s =>
        if datePatternMatch s then []
        else [(fld, "must be in format \x27DD/MM/YYYY\x27, got: " ++ s, did)]
      | _ => [(fld, "must be a string in format \x27DD/MM/YYYY\x27 or null", did)]
  | none => []

/-- The `from` and `until` rules, in loop order. -/
def dateErrs (kvs : PyDict) (did : Json) : List Violation :=
  dateErrsFor kvs did "from" ++ dateErrsFor kvs did "until"

/-- The `tikz` rule: present values other than `None` and `False` violate. -/
def tikzErrs (kvs : PyDict) (did : Json) : List Violation :=
  match lookup kvs "tikz" with
  | some v =>
    if isNull v then []
    else
      match v with
      | .bool false => []
      | w => [("tikz", "must be false or null, got: " ++ pyStr w, did)]
  | none => []

/-- The `title` underscore rule. -/
def titleErrs (kvs : PyDict) (did : Json) : List Violation :=
  match lookup kvs "title" with
  | some v =>
    if isNull v then []
    else if strContainsSub (pyStr v) "_" then
      [("title", "cannot contain underscore characters", did)]
    else []
  | none => []

/-- One iteration of the `book_in_bibliography` chunking rule (note the
source tests `is not False`, so a present `None` also violates). -/
def bookErrsFor (kvs : PyDict) (did : Json) (fld : String) : List Violation :=
  match lookup kvs fld with
  | some v =>
    match v with
    | .bool false => []
    | _ => [(fld, "must be false when subtype is \x27book_in_bibliography\x27", did)]
  | none => []

/-- The `book_in_bibliography` conditional rule. -/
def bookErrs (kvs : PyDict) (did : Json) : List Violation :=
  if pyEqStr "book_in_bibliography" (pyGet kvs "subtype") then
    bookErrsFor kvs did "one_chunk_per_page" ++ bookErrsFor kvs did "one_chunk_per_doc"
  else []

/-- The `processing_method` closed-enumeration rule. -/
def pmErrs (kvs : PyDict) (did : Json) : List Violation :=
  match lookup kvs "processing_method" with
  | some v =>
    if isNull v then []
    else if ["gemini", "tesseract", "google"].any (fun m => pyEqStr m v) then []
    else [("processing_method",
      "must be one of [\x27gemini\x27, \x27tesseract\x27, \x27google\x27] or null, got: "
        ++ pyStr v, did)]
  | none => []

/-- The document-level `srt_path` suffix rule. -/
def srtErrs (kvs : PyDict) (did : Json) : List Violation :=
  match lookup kvs "srt_path" with
  | some v =>
    if isNull v then []
    else
      match v with
      | .str s =>
        if strEndsWith s ".srt" then []
        else [("srt_path", "must be null or end with \x27.srt\x27", did)]
      | _ => [("srt_path", "must be null or end with \x27.srt\x27", did)]
  | none => []

/-- The `original_link` rule of the first (shadowed) textual definition:
unconditional `mediaspace` substring check. -/
def olErrs1 (kvs : PyDict) (did : Json) : List Violation :=
  match lookup kvs "original_link" with
  | some v =>
    if isNull v then []
    else
      match v with
      | .str s =>
        if strContainsSub s "mediaspace" then []
        else [("original_link", "must be null or contain \x27mediaspace\x27", did)]
      | _ => [("original_link", "must be null or contain \x27mediaspace\x27", did)]
  | none => []

/-- The `original_link` rule of the second (effective) textual definition:
the gate reads `doc["is_video"]` with a plain index, so a present non-null
`original_link` together with an absent `is_video` key raises `KeyError`. -/
def olErrs2 (kvs : PyDict) (did : Json) : Except PyErr (List Violation) :=
  match lookup kvs "original_link" with
  | some v =>
    if isNull v then .ok []
    else
      match lookup kvs "is_video" with
      | none => .error .keyErr
      | some iv =>
        if pyTruthy iv then
          .ok (match v with
               | .str s =>
                 if strContainsSub s "mediaspace" || strContainsSub s "coursera" ||
                    strContainsSub s "courseware" || strContainsSub s "edx" then []
                 else [("original_link",
                        "must be null or contain \x27mediaspace\x27 or a MOOC platform", did)]
               | _ => [("original_link",
                        "must be null or contain \x27mediaspace\x27 or a MOOC platform", did)])
        else .ok []
  | none => .ok []

/-- The `is_gemini_processed_video` conditional rule (identical in both
textual definitions): forces `is_video` and, when the declared `path`
exists, checks the Gemini JSON structure.  `root_folder / doc["path"]`
raises `TypeError` for a non-string value. -/
def gemErrs (kvs : PyDict) (did : Json) (fs : FS) (root : String) :
    Except PyErr (List Violation) :=
  match pyGet kvs "is_gemini_processed_video" with
  | .bool true =>
    let e1 :=
      match lookup kvs "is_video" with
      | some (.bool true) => []
      | _ => [("is_video", "must be true when is_gemini_processed_video is true", did)]
    match lookup kvs "path" with
    | some v =>
      if isNull v then .ok e1
      else
        match v with
        | .str s =>
          .ok (e1 ++
            (if fs.isFile (joinPath root s) then
              if validate_gemini_json_structure (fs.read (joinPath root s)) then []
              else [("path", "Gemini JSON file has invalid structure", did)]
             else []))
        | _ => .error .typeErr
    | none => .ok e1
  | _ => .ok []

/-- One iteration of the `associated_video_lectures` loop: a non-dict
element yields the `must be a dictionary` violation, a dict element is
validated by `validate_associated_video_lecture`. -/
def avlElem (did : Json) (fs : FS) (root : String) (x : Json) (i : Nat) :
    Except PyErr (List Violation) :=
  match x with
  | .obj vkvs => validate_associated_video_lecture vkvs did i fs root
  | _ => .ok [(avlPfx i, "must be a dictionary", did)]

/-- The loop over `doc["associated_video_lectures"]` (identical in both
textual definitions). -/
def avlLoop (did : Json) (fs : FS) (root : String) :
    List Json → Nat → Except PyErr (List Violation)
  | [], _ => .ok []
  | x :: rest, i =>
    match avlElem did fs root x i with
    | .error e => .error e
    | .ok hs =>
      match avlLoop did fs root rest (i + 1) with
      | .error e => .error e
      | .ok ts => .ok (hs ++ ts)

/-- The `associated_video_lectures` rule (identical in both textual
definitions). -/
def avlErrs (kvs : PyDict) (did : Json) (fs : FS) (root : String) :
    Except PyErr (List Violation) :=
  match lookup kvs "associated_video_lectures" with
  | some v =>
    if isNull v then .ok []
    else
      match v with
      | .arr xs => avlLoop did fs root xs 0
      | _ => .ok [("associated_video_lectures", "must be a list", did)]
  | none => .ok []

/-- Body of the first (shadowed) textual `validate_document_fields` on a
dict: rules run in source order, the first raised exception wins. -/
def vdfObj1 (kvs : PyDict) (fs : FS) (root : String) : Except PyErr (List Violation) :=
  let did := pyGetD kvs "id" (Json.str "unknown")
  match vlErrs1 kvs did with
  | .error e => .error e
  | .ok e4 =>
    match gemErrs kvs did fs root with
    | .error e => .error e
    | .ok e12 =>
      match avlErrs kvs did fs root with
      | .error e => .error e
      | .ok e13 =>
        .ok (weekErrs kvs did ++ numsErrs kvs did ++ modelErrs kvs did ++ e4 ++
             dateErrs kvs did ++ tikzErrs kvs did ++ titleErrs kvs did ++
             bookErrs kvs did ++ pmErrs kvs did ++ srtErrs kvs did ++
             olErrs1 kvs did ++ e12 ++ e13)

/-- Body of the second (effective) textual `validate_document_fields` on a
dict: rules run in source order, the first raised exception wins. -/
def vdfObj2 (kvs : PyDict) (fs : FS) (root : String) : Except PyErr (List Violation) :=
  let did := pyGetD kvs "id" (Json.str "unknown")
  match vlErrs2 kvs did with
  | .error e => .error e
  | .ok e4 =>
    match olErrs2 kvs did with
    | .error e => .error e
    | .ok e11 =>
      match gemErrs kvs did fs root with
      | .error e => .error e
      | .ok e12 =>
        match avlErrs kvs did fs root with
        | .error e => .error e
        | .ok e13 =>
          .ok (weekErrs kvs did ++ numsErrs kvs did ++ modelErrs kvs did ++ e4 ++
               dateErrs kvs did ++ tikzErrs kvs did ++ titleErrs kvs did ++
               bookErrs kvs did ++ pmErrs kvs did ++ srtErrs kvs did ++
               e11 ++ e12 ++ e13)

/-- The first textual definition of `validate_document_fields`
(lines 177-346 of the source), which the second definition shadows.
A non-dict argument raises `AttributeError` at `doc.get`. -/
def validate_document_fields_v1 (doc : Json) (fs : FS) (root : String) :
    Except PyErr (List Violation) :=
  match doc with
  | .obj kvs => vdfObj1 kvs fs root
  | _ => .error .attributeErr

/-- The second textual definition of `validate_document_fields`
(lines 349-524 of the source); being the later module-level binding of the
same name, it is the definition every caller gets. -/
def validate_document_fields (doc : Json) (fs : FS) (root : String) :
    Except PyErr (List Violation) :=
  match doc with
  | .obj kvs => vdfObj2 kvs fs root
  | _ => .error .attributeErr

/-- The inner attribute loop of the associated-video-lecture branch of
`extract_paths_from_document`: `if attr in video and video[attr] is not
None`, where `video` came from bare `enumerate` (no dict check), so both
the membership test and the index can raise. -/
def extractVidAttrs (video : Json) (pfx : String) (did : Json) :
    List String → Except PyErr (List PathEntry)
  | [] => .ok []
  | a :: rest =>
    match pyContains video a with
    | .error e => .error e
    | .ok false => extractVidAttrs video pfx did rest
    | .ok true =>
      match pyIndex video a with
      | .error e => .error e
      | .ok v =>
        match extractVidAttrs video pfx did rest with
        | .error e => .error e
        | .ok tail => .ok (if isNull v then tail else (pfx ++ "." ++ a, v, did) :: tail)

/-- The `enumerate(doc["associated_video_lectures"])` loop of
`extract_paths_from_document`. -/
def extractVidsLoop (did : Json) : List Json → Nat → Except PyErr (List PathEntry)
  | [], _ => .ok []
  | video :: rest, i =>
    match extractVidAttrs video (avlPfx i) did
        ["path", "srt_path", "pdf_page_video_ts_path"] with
    | .error e => .error e
    | .ok hs =>
      match extractVidsLoop did rest (i + 1) with
      | .error e => .error e
      | .ok ts => .ok (hs ++ ts)

/-- `extract_paths_from_document(doc)`.  A non-dict document raises
`AttributeError` at `doc.get`. -/
def extract_paths_from_document (doc : Json) : Except PyErr (List PathEntry) :=
  match doc with
  | .obj kvs =>
    let did := pyGetD kvs "id" (Json.str "unknown")
    let main := ["path", "srt_path", "pdf_page_video_ts_path"].filterMap (fun a =>
      match lookup kvs a with
      | some v => if isNull v then none else some (a, v, did)
      | none => none)
    match lookup kvs "associated_video_lectures" with
    | none => .ok main
    | some v =>
      if isNull v then .ok main
      else
        match pyIterate v with
        | .error e => .error e
        | .ok vids =>
          match extractVidsLoop did vids 0 with
          | .error e => .error e
          | .ok rest => .ok (main ++ rest)
  | _ => .error .attributeErr

/-- The per-path body of the loop in `validate_json_file`: join the declared
value onto the root (`TypeError` for a non-string), list the parent
directory (`FileNotFoundError` when it does not exist), and test exact,
case-sensitive membership of the final segment in that listing.
`.ok true` is a Valid classification, `.ok false` Invalid. -/
def classifyPath (fs : FS) (root : String) (value : Json) : Except PyErr Bool :=
  match value with
  | .str s =>
    match fs.listdir (pathParent (joinPath root s)) with
    | none => .error .fileNotFoundErr
    | some entries => .ok (entries.contains (pathName (joinPath root s)))
  | _ => .error .typeErr

/-- The classification loop of `validate_json_file`, accumulating the
valid and invalid entries in order. -/
def classifyLoop (fs : FS) (root : String) :
    List PathEntry → Except PyErr (List PathEntry × List PathEntry)
  | [] => .ok ([], [])
  | (a, v, d) :: rest =>
    match classifyPath fs root v with
    | .error e => .error e
    | .ok b =>
      match classifyLoop fs root rest with
      | .error e => .error e
      | .ok (vs, ivs) =>
        .ok (if b then ((a, v, d) :: vs, ivs) else (vs, (a, v, d) :: ivs))

/-- The per-document loop of `validate_json_file`. -/
def docsLoop (fs : FS) (root : String) :
    List Json → Except PyErr (List PathEntry × List PathEntry × List Violation)
  | [] => .ok ([], [], [])
  | d :: rest =>
    match validate_document_fields d fs root with
    | .error e => .error e
    | .ok ferrs =>
      match extract_paths_from_document d with
      | .error e => .error e
      | .ok entries =>
        match classifyLoop fs root entries with
        | .error e => .error e
        | .ok (vs, ivs) =>
          match docsLoop fs root rest with
          | .error e => .error e
          | .ok (vr, ivr, fr) => .ok (vs ++ vr, ivs ++ ivr, ferrs ++ fr)

/-- `validate_json_file(json_file, root_folder)`.  `Except.error ()` models
`sys.exit(1)`: both the `json.JSONDecodeError` handler and the catch-all
`except Exception` handler print and exit, so any failure to open or parse
the metadata file, and any exception raised while validating, aborts the
run.  A missing `documents` key only prints a warning and yields empty
results. -/
def validate_json_file (fs : FS) (root : String) (r : ReadResult) :
    Except Unit (List PathEntry × List PathEntry × List Violation) :=
  match r with
  | .noFile => .error ()
  | .badJson => .error ()
  | .json data =>
    match pyContains data "documents" with
    | .error _ => .error ()
    | .ok false => .ok ([], [], [])
    | .ok true =>
      match pyIndex data "documents" with
      | .error _ => .error ()
      | .ok docsVal =>
        match pyIterate docsVal with
        | .error _ => .error ()
        | .ok docs =>
          match docsLoop fs root docs with
          | .error _ => .error ()
          | .ok res => .ok res

/-- An empty filesystem: no directories, no files. -/
def fs0 : FS where
  listdir := fun _ => none
  isFile := fun _ => false
  read := fun _ => .noFile

/-- The violations of `errs` reported against field `t`. -/
def fieldFilter (t : String) (errs : List Violation) : List Violation :=
  errs.filter (fun v => v.1 == t)

/-- Remove key `k` from a dict (Python `del d[k]` on the association-list
model). -/
def eraseKey (kvs : PyDict) (k : String) : PyDict :=
  kvs.filter (fun kv => !(kv.1 == k))

/-- Replace the value of key `k` (Python `d[k] = v` for a present key). -/
def setKey (kvs : PyDict) (k : String) (v : Json) : PyDict :=
  kvs.map (fun kv => if kv.1 == k then (kv.1, v) else kv)

/-- The top level of a segmented-video-description file has all five
required keys. -/
def topHasKeys (kvs : PyDict) : Bool :=
  gemini_required_fields.all (fun f => hasKey kvs f)

/-- A `video_segments` element is a mapping with all thirteen required
segment keys. -/
def segHasAllKeys : Json → Bool
  | .obj skvs => segment_required_fields.all (fun f => hasKey skvs f)
  | _ => false


/-- A filesystem whose root directory contains exactly one file named
`Lecture1.pdf` (used to exhibit case-sensitive resolution). -/
def fsW : FS where
  listdir := fun d => if d == "root" then some ["Lecture1.pdf"] else none
  isFile := fun _ => false
  read := fun _ => .noFile

/-- A sub-record whose `srt_path` fails the suffix check and also names a nonexistent file. -/
def vkvsC3 : PyDict :=
  [("title", Json.null), ("is_gemini_processed_video", Json.null),
   ("original_link", Json.null), ("path", Json.null),
   ("srt_path", Json.str "missing.txt"), ("pdf_page_video_ts_path", Json.null)]

/-- A sub-record whose `srt_path` passes the suffix check but names a nonexistent file. -/
def vkvsC3w : PyDict :=
  [("title", Json.null), ("is_gemini_processed_video", Json.null),
   ("original_link", Json.null), ("path", Json.null),
   ("srt_path", Json.str "a.srt"), ("pdf_page_video_ts_path", Json.null)]

/-- A sub-record whose `pdf_page_video_ts_path` names a nonexistent file. -/
def vkvsC7 : PyDict :=
  [("title", Json.null), ("is_gemini_processed_video", Json.null),
   ("original_link", Json.null), ("path", Json.null),
   ("srt_path", Json.null), ("pdf_page_video_ts_path", Json.str "ts.json")]

/-- A sub-record from which the `srt_path` key is entirely absent. -/
def vkvsC8 : PyDict :=
  [("title", Json.null), ("is_gemini_processed_video", Json.null),
   ("original_link", Json.null), ("path", Json.null),
   ("pdf_page_video_ts_path", Json.null)]

/-- A video segment carrying all thirteen required keys. -/
def goodSeg : PyDict :=
  [("start_time", Json.null), ("end_time", Json.null), ("key_frame_time", Json.null),
   ("contains_math", Json.null), ("contains_diagram", Json.null),
   ("teacher_uses_pointer", Json.null), ("segment_audio_transcription_en", Json.null),
   ("segment_audio_transcription_fr", Json.null), ("extracted_text_video_frame", Json.null),
   ("short_description_video_segment_en", Json.null),
   ("short_description_video_segment_fr", Json.null),
   ("segment_keywords_en", Json.null), ("segment_keywords_fr", Json.null)]

/-- A segmented-video-description document carrying all five top-level keys. -/
def goodGemini : PyDict :=
  [("language", Json.str "en"), ("general_description_en", Json.str "d"),
   ("video_keywords_en", Json.arr []), ("video_keywords_fr", Json.arr []),
   ("video_segments", Json.arr [Json.obj goodSeg])]

theorem strCancelLeft {a b c : String} (h : a ++ b = a ++ c) : b = c := by
  apply String.ext
  have h2 := congrArg String.data h
  rw [String.data_append, String.data_append] at h2
  exact List.append_cancel_left h2

theorem strNeAppend (a : String) {b c : String} (h : b ≠ c) : a ++ b ≠ a ++ c :=
  fun he => h (strCancelLeft he)

theorem dotFieldNe (pfx : String) {f g : String} (h : f ≠ g) :
    pfx ++ "." ++ f ≠ pfx ++ "." ++ g :=
  strNeAppend (pfx ++ ".") h

theorem dotFieldEq (pfx f : String) : pfx ++ ("." ++ f) = pfx ++ "." ++ f := by
  rw [String.append_assoc]

theorem avlHeadNeWeek (s : String) : "associated_video_lectures[" ++ s ≠ "week" := by
  intro h
  have h2 : ("associated_video_lectures[" ++ s).data.head? = ("week" : String).data.head? :=
    congrArg (fun q => q.data.head?) h
  rw [String.data_append] at h2
  simp at h2

theorem fieldFilter_append (t : String) (a b : List Violation) :
    fieldFilter t (a ++ b) = fieldFilter t a ++ fieldFilter t b := by
  simp [fieldFilter, List.filter_append]

theorem fieldFilter_nil_of_ne {t : String} {l : List Violation}
    (h : ∀ v ∈ l, v.1 ≠ t) : fieldFilter t l = [] := by
  rw [fieldFilter, List.filter_eq_nil_iff]
  intro v hv
  simpa using h v hv

theorem mem_missingOf {vkvs : PyDict} {pfx : String} {did : Json}
    {fields : List String} {v : Violation} (h : v ∈ missingOf vkvs pfx did fields) :
    ∃ f ∈ fields, hasKey vkvs f = false ∧
      v = (pfx ++ "." ++ f, "required field missing", did) := by
  rw [missingOf, List.mem_filterMap] at h
  obtain ⟨f, hf, hv⟩ := h
  refine ⟨f, hf, ?_⟩
  by_cases hk : hasKey vkvs f
  · simp [hk] at hv
  · simp [hk] at hv
    exact ⟨by simpa using hk, hv.symm⟩

theorem dotAssoc (pfx f tail : String) (h : "." ++ f = tail) :
    pfx ++ "." ++ f = pfx ++ tail := by
  rw [String.append_assoc, h]

theorem avlTitleErrs_field {vkvs : PyDict} {pfx : String} {did : Json} {v : Violation}
    (h : v ∈ avlTitleErrs vkvs pfx did) : v.1 = pfx ++ ".title" := by
  unfold avlTitleErrs at h
  repeat' split at h
  all_goals simp_all

theorem avlLinkErrs_field {vkvs : PyDict} {pfx : String} {did : Json} {v : Violation}
    (h : v ∈ avlLinkErrs vkvs pfx did) : v.1 = pfx ++ ".original_link" := by
  unfold avlLinkErrs at h
  repeat' split at h
  all_goals simp_all

theorem avlSrtErrs_field {vkvs : PyDict} {pfx : String} {did : Json} {fs : FS}
    {root : String} {v : Violation}
    (h : v ∈ avlSrtErrs vkvs pfx did fs root) : v.1 = pfx ++ ".srt_path" := by
  unfold avlSrtErrs at h
  repeat' split at h
  all_goals simp_all

theorem avlPdfErrs_field {vkvs : PyDict} {pfx : String} {did : Json} {fs : FS}
    {root : String} {pe : List Violation} {v : Violation}
    (hp : avlPdfErrs vkvs pfx did fs root = Except.ok pe) (h : v ∈ pe) :
    v.1 = pfx ++ ".pdf_page_video_ts_path" := by
  unfold avlPdfErrs at hp
  repeat' split at hp
  all_goals simp_all
  all_goals (subst hp; simp_all)

theorem avl_decomp {vkvs : PyDict} {did : Json} {idx : Nat} {fs : FS} {root : String}
    {errs : List Violation}
    (h : validate_associated_video_lecture vkvs did idx fs root = Except.ok errs) :
    ∃ pe, avlPdfErrs vkvs (avlPfx idx) did fs root = Except.ok pe ∧
      errs = missingOf vkvs (avlPfx idx) did avl_required_fields ++
        avlTitleErrs vkvs (avlPfx idx) did ++ avlLinkErrs vkvs (avlPfx idx) did ++
        avlSrtErrs vkvs (avlPfx idx) did fs root ++ pe := by
  simp only [validate_associated_video_lecture] at h
  cases hp : avlPdfErrs vkvs (avlPfx idx) did fs root with
  | error e => rw [hp] at h; cases h
  | ok pe =>
    rw [hp] at h
    simp only [Except.ok.injEq] at h
    exact ⟨pe, rfl, h.symm⟩

theorem missingOf_filter_none {vkvs : PyDict} {pfx : String} {did : Json} {t : String}
    {fields : List String}
    (h : ∀ f ∈ fields, hasKey vkvs f = false → pfx ++ "." ++ f ≠ t) :
    fieldFilter t (missingOf vkvs pfx did fields) = [] := by
  apply fieldFilter_nil_of_ne
  intro v hv
  obtain ⟨f, hf, hk, rfl⟩ := mem_missingOf hv
  exact h f hf hk

theorem missingOf_filter_single {vkvs : PyDict} {pfx : String} {did : Json} {t : String}
    (pre post : List String) (fld : String)
    (ht : pfx ++ "." ++ fld = t)
    (habs : hasKey vkvs fld = false)
    (hpre : ∀ f ∈ pre, hasKey vkvs f = false → pfx ++ "." ++ f ≠ t)
    (hpost : ∀ f ∈ post, hasKey vkvs f = false → pfx ++ "." ++ f ≠ t) :
    fieldFilter t (missingOf vkvs pfx did (pre ++ fld :: post)) =
      [(t, "required field missing", did)] := by
  rw [missingOf, List.filterMap_append, ← missingOf, ← missingOf]
  rw [show (missingOf vkvs pfx did (fld :: post)) =
      (pfx ++ "." ++ fld, "required field missing", did) :: missingOf vkvs pfx did post by
    simp [missingOf, habs]]
  rw [fieldFilter_append, missingOf_filter_none hpre]
  rw [show fieldFilter t ((pfx ++ "." ++ fld, "required field missing", did) ::
        missingOf vkvs pfx did post) =
      (t, "required field missing", did) :: fieldFilter t (missingOf vkvs pfx did post) by
    simp [fieldFilter, List.filter, ht]]
  rw [missingOf_filter_none hpost]
  rfl

theorem lookup_eq_none {vkvs : PyDict} {k : String} (h : hasKey vkvs k = false) :
    lookup vkvs k = none := by
  cases hl : lookup vkvs k with
  | none => rfl
  | some v => rw [hasKey, hl] at h; simp at h

theorem hasKey_true_of_lookup {vkvs : PyDict} {k : String} {v : Json}
    (h : lookup vkvs k = some v) : hasKey vkvs k = true := by
  rw [hasKey, h]; rfl

theorem fieldFilter_self {t : String} {l : List Violation}
    (h : ∀ v ∈ l, v.1 = t) : fieldFilter t l = l := by
  rw [fieldFilter, List.filter_eq_self]
  intro v hv
  simp [h v hv]

theorem pyIndex_nonObj {d : Json} (hd : isObjB d = false) (k : String) :
    pyIndex d k = Except.error PyErr.typeErr := by
  cases d <;> simp_all [pyIndex, isObjB]

theorem checkFieldsIn_obj (k : PyDict) (fl : List String) :
    checkFieldsIn (Json.obj k) fl = Except.ok (fl.all (fun f => hasKey k f)) := by
  induction fl with
  | nil => rfl
  | cons f rest ih =>
    rw [checkFieldsIn]
    cases hk : hasKey k f
    · simp [pyContains, hk]
    · simp [pyContains, hk, ih]

theorem lookup_eraseKey_self (skvs : PyDict) (f : String) :
    lookup (eraseKey skvs f) f = none := by
  induction skvs with
  | nil => rfl
  | cons kv rest ih =>
    by_cases h : kv.1 == f
    · simpa [eraseKey, List.filter_cons, h] using ih
    · simpa [eraseKey, List.filter_cons, h, lookup, List.find?_cons, Option.map] using ih

theorem hasKey_eraseKey_self (skvs : PyDict) (f : String) :
    hasKey (eraseKey skvs f) f = false := by
  rw [hasKey, lookup_eraseKey_self]
  rfl

theorem lookup_cons (kv : String × Json) (rest : PyDict) (g : String) :
    lookup (kv :: rest) g = if kv.1 == g then some kv.2 else lookup rest g := by
  by_cases h : kv.1 == g <;> simp [lookup, List.find?_cons, h]

theorem hasKey_setKey (kvs : PyDict) (k : String) (v : Json) (g : String) :
    hasKey (setKey kvs k v) g = hasKey kvs g := by
  induction kvs with
  | nil => rfl
  | cons kv rest ih =>
    obtain ⟨a, b⟩ := kv
    show hasKey ((if a == k then (a, v) else (a, b)) :: setKey rest k v) g = _
    by_cases hk : a = k
    · subst hk
      by_cases hg : a = g
      · subst hg
        simp [hasKey, lookup_cons]
      · simp [hasKey, lookup_cons, hg]
        simpa [hasKey] using ih
    · simp only [show (a == k) = false by simp [hk], if_false]
      by_cases hg : a = g
      · subst hg
        simp [hasKey, lookup_cons]
      · simp [hasKey, lookup_cons, hg]
        simpa [hasKey] using ih

theorem lookup_setKey_self (kvs : PyDict) (k : String) (v : Json)
    (h : hasKey kvs k = true) : lookup (setKey kvs k v) k = some v := by
  induction kvs with
  | nil => cases h
  | cons kv rest ih =>
    obtain ⟨a, b⟩ := kv
    show lookup ((if a == k then (a, v) else (a, b)) :: setKey rest k v) k = some v
    by_cases hk : a = k
    · subst hk
      simp [lookup_cons]
    · have h2 : hasKey rest k = true := by
        simpa [hasKey, lookup_cons, hk] using h
      simp only [show (a == k) = false by simp [hk], if_false]
      simpa [lookup_cons, hk] using ih h2

theorem checkSegments_all_good (segs : List Json)
    (h : ∀ s ∈ segs, segHasAllKeys s = true) :
    checkSegments segs = Except.ok true := by
  induction segs with
  | nil => rfl
  | cons s rest ih =>
    have hs := h s (List.mem_cons_self s rest)
    cases s with
    | obj skvs =>
      rw [checkSegments, checkFieldsIn_obj]
      rw [show segment_required_fields.all (fun f => hasKey skvs f) = true by
        simpa [segHasAllKeys] using hs]
      exact ih (fun x hx => h x (List.mem_cons_of_mem _ hx))
    | null => simp [segHasAllKeys] at hs
    | bool b => simp [segHasAllKeys] at hs
    | int n => simp [segHasAllKeys] at hs
    | str t => simp [segHasAllKeys] at hs
    | arr xs => simp [segHasAllKeys] at hs

theorem checkSegments_bad (pre post : List Json) (bkvs : PyDict)
    (hpre : ∀ s ∈ pre, segHasAllKeys s = true)
    (hbad : segment_required_fields.all (fun f => hasKey bkvs f) = false) :
    checkSegments (pre ++ Json.obj bkvs :: post) = Except.ok false := by
  induction pre with
  | nil =>
    rw [List.nil_append, checkSegments, checkFieldsIn_obj, hbad]
    rfl
  | cons s rest ih =>
    have hs := hpre s (List.mem_cons_self s rest)
    cases s with
    | obj skvs =>
      rw [List.cons_append, checkSegments, checkFieldsIn_obj]
      rw [show segment_required_fields.all (fun f => hasKey skvs f) = true by
        simpa [segHasAllKeys] using hs]
      exact ih (fun x hx => hpre x (List.mem_cons_of_mem _ hx))
    | null => simp [segHasAllKeys] at hs
    | bool b => simp [segHasAllKeys] at hs
    | int n => simp [segHasAllKeys] at hs
    | str t => simp [segHasAllKeys] at hs
    | arr xs => simp [segHasAllKeys] at hs

theorem avlPfx_append_ne_week (idx : Nat) (sfx : String) : avlPfx idx ++ sfx ≠ "week" := by
  rw [avlPfx, String.append_assoc, String.append_assoc]
  exact avlHeadNeWeek _

theorem avlPfx_ne_week (idx : Nat) : avlPfx idx ≠ "week" := by
  rw [avlPfx, String.append_assoc]
  exact avlHeadNeWeek _

theorem avl_sub_fields {vkvs : PyDict} {did : Json} {idx : Nat} {fs : FS} {root : String}
    {errs : List Violation}
    (h : validate_associated_video_lecture vkvs did idx fs root = Except.ok errs) :
    ∀ v ∈ errs, ∃ sfx, v.1 = avlPfx idx ++ sfx := by
  obtain ⟨pe, hp, rfl⟩ := avl_decomp h
  intro v hv
  simp only [List.mem_append] at hv
  rcases hv with ((((hv | hv) | hv) | hv) | hv)
  · obtain ⟨f, _, _, rfl⟩ := mem_missingOf hv
    exact ⟨"." ++ f, (String.append_assoc _ _ _).symm ▸ rfl⟩
  · exact ⟨".title", avlTitleErrs_field hv⟩
  · exact ⟨".original_link", avlLinkErrs_field hv⟩
  · exact ⟨".srt_path", avlSrtErrs_field hv⟩
  · exact ⟨".pdf_page_video_ts_path", avlPdfErrs_field hp hv⟩

theorem avlElem_fields {did : Json} {fs : FS} {root : String} {x : Json} {i : Nat}
    {hs : List Violation} (h : avlElem did fs root x i = Except.ok hs) :
    ∀ v ∈ hs, (∃ sfx, v.1 = avlPfx i ++ sfx) ∨ v.1 = avlPfx i := by
  cases x with
  | obj vkvs =>
    intro v hv
    exact Or.inl (avl_sub_fields h v hv)
  | null =>
    simp only [avlElem, Except.ok.injEq] at h
    subst h
    intro v hv
    rw [List.mem_singleton] at hv
    exact Or.inr (by rw [hv])
  | bool b =>
    simp only [avlElem, Except.ok.injEq] at h
    subst h
    intro v hv
    rw [List.mem_singleton] at hv
    exact Or.inr (by rw [hv])
  | int n =>
    simp only [avlElem, Except.ok.injEq] at h
    subst h
    intro v hv
    rw [List.mem_singleton] at hv
    exact Or.inr (by rw [hv])
  | str t =>
    simp only [avlElem, Except.ok.injEq] at h
    subst h
    intro v hv
    rw [List.mem_singleton] at hv
    exact Or.inr (by rw [hv])
  | arr ys =>
    simp only [avlElem, Except.ok.injEq] at h
    subst h
    intro v hv
    rw [List.mem_singleton] at hv
    exact Or.inr (by rw [hv])

theorem avlLoop_fields {did : Json} {fs : FS} {root : String} {xs : List Json} {i : Nat}
    {errs : List Violation} (h : avlLoop did fs root xs i = Except.ok errs) :
    ∀ v ∈ errs, (∃ j sfx, v.1 = avlPfx j ++ sfx) ∨ (∃ j, v.1 = avlPfx j) := by
  induction xs generalizing i errs with
  | nil =>
    simp only [avlLoop, Except.ok.injEq] at h
    subst h
    intro v hv
    cases hv
  | cons x rest ih =>
    simp only [avlLoop] at h
    cases hh : avlElem did fs root x i with
    | error e => rw [hh] at h; cases h
    | ok hs =>
      rw [hh] at h
      cases ht2 : avlLoop did fs root rest (i + 1) with
      | error e => rw [ht2] at h; cases h
      | ok ts =>
        rw [ht2] at h
        simp only [Except.ok.injEq] at h
        subst h
        intro v hv
        rcases List.mem_append.mp hv with hv | hv
        · rcases avlElem_fields hh v hv with ⟨sfx, hs2⟩ | hs2
          · exact Or.inl ⟨i, sfx, hs2⟩
          · exact Or.inr ⟨i, hs2⟩
        · exact ih ht2 v hv

theorem weekErrs_bool {kvs : PyDict} {did : Json} {b : Bool}
    (h : lookup kvs "week" = some (Json.bool b)) : weekErrs kvs did = [] := by
  rw [weekErrs, h]
  rfl

theorem weekErrs_field {kvs : PyDict} {did : Json} {v : Violation}
    (h : v ∈ weekErrs kvs did) : v.1 = "week" := by
  unfold weekErrs at h
  repeat' split at h
  all_goals simp_all

theorem numErrsFor_field {kvs : PyDict} {did : Json} {fld : String} {v : Violation}
    (h : v ∈ numErrsFor kvs did fld) : v.1 = fld := by
  unfold numErrsFor at h
  repeat' split at h
  all_goals simp_all

theorem modelErrs_field {kvs : PyDict} {did : Json} {v : Violation}
    (h : v ∈ modelErrs kvs did) : v.1 = "model" := by
  unfold modelErrs at h
  repeat' split at h
  all_goals simp_all

theorem dateErrsFor_field {kvs : PyDict} {did : Json} {fld : String} {v : Violation}
    (h : v ∈ dateErrsFor kvs did fld) : v.1 = fld := by
  unfold dateErrsFor at h
  repeat' split at h
  all_goals simp_all

theorem tikzErrs_field {kvs : PyDict} {did : Json} {v : Violation}
    (h : v ∈ tikzErrs kvs did) : v.1 = "tikz" := by
  unfold tikzErrs at h
  repeat' split at h
  all_goals simp_all

theorem titleErrs_field {kvs : PyDict} {did : Json} {v : Violation}
    (h : v ∈ titleErrs kvs did) : v.1 = "title" := by
  unfold titleErrs at h
  repeat' split at h
  all_goals simp_all

theorem bookErrsFor_field {kvs : PyDict} {did : Json} {fld : String} {v : Violation}
    (h : v ∈ bookErrsFor kvs did fld) : v.1 = fld := by
  unfold bookErrsFor at h
  repeat' split at h
  all_goals simp_all

theorem pmErrs_field {kvs : PyDict} {did : Json} {v : Violation}
    (h : v ∈ pmErrs kvs did) : v.1 = "processing_method" := by
  unfold pmErrs at h
  repeat' split at h
  all_goals simp_all

theorem srtErrs_field {kvs : PyDict} {did : Json} {v : Violation}
    (h : v ∈ srtErrs kvs did) : v.1 = "srt_path" := by
  unfold srtErrs at h
  repeat' split at h
  all_goals simp_all

theorem vlPathCheck_field {kvs : PyDict} {did : Json} {pe : List Violation} {v : Violation}
    (h : vlPathCheck kvs did = Except.ok pe) (hv : v ∈ pe) : v.1 = "path" := by
  unfold vlPathCheck at h
  repeat' split at h
  all_goals simp_all
  all_goals (subst h; simp_all)

theorem vlIsVideoCheck_field {kvs : PyDict} {did : Json} {v : Violation}
    (h : v ∈ vlIsVideoCheck kvs did) : v.1 = "is_video" := by
  unfold vlIsVideoCheck at h
  repeat' split at h
  all_goals simp_all

theorem vlErrs2_fields {kvs : PyDict} {did : Json} {e4 : List Violation} {v : Violation}
    (h : vlErrs2 kvs did = Except.ok e4) (hv : v ∈ e4) :
    v.1 = "path" ∨ v.1 = "is_video" := by
  unfold vlErrs2 at h
  split at h
  · cases hpc : vlPathCheck kvs did with
    | error e => rw [hpc] at h; cases h
    | ok pe =>
      rw [hpc] at h
      simp only [Except.ok.injEq] at h
      subst h
      rcases List.mem_append.mp hv with hv | hv
      · exact Or.inl (vlPathCheck_field hpc hv)
      · exact Or.inr (vlIsVideoCheck_field hv)
  · simp only [Except.ok.injEq] at h
    subst h
    cases hv

theorem olErrs2_fields {kvs : PyDict} {did : Json} {e11 : List Violation} {v : Violation}
    (h : olErrs2 kvs did = Except.ok e11) (hv : v ∈ e11) : v.1 = "original_link" := by
  unfold olErrs2 at h
  repeat' split at h
  all_goals (try cases h)
  all_goals simp_all

theorem gemErrs_fields {kvs : PyDict} {did : Json} {fs : FS} {root : String}
    {e12 : List Violation} {v : Violation}
    (h : gemErrs kvs did fs root = Except.ok e12) (hv : v ∈ e12) :
    v.1 = "is_video" ∨ v.1 = "path" := by
  unfold gemErrs at h
  repeat' split at h
  all_goals (try cases h)
  all_goals simp_all
  all_goals (rcases hv with hv | hv <;> simp_all)

theorem avlErrs_fields {kvs : PyDict} {did : Json} {fs : FS} {root : String}
    {e13 : List Violation} {v : Violation}
    (h : avlErrs kvs did fs root = Except.ok e13) (hv : v ∈ e13) :
    v.1 = "associated_video_lectures" ∨ (∃ j sfx, v.1 = avlPfx j ++ sfx) ∨
      (∃ j, v.1 = avlPfx j) := by
  unfold avlErrs at h
  split at h
  · split at h
    · simp only [Except.ok.injEq] at h
      subst h
      cases hv
    · split at h
      · exact Or.inr (avlLoop_fields h v hv)
      · simp only [Except.ok.injEq] at h
        subst h
        rw [List.mem_singleton] at hv
        exact Or.inl (by rw [hv])
  · simp only [Except.ok.injEq] at h
    subst h
    cases hv

theorem vdf2_decomp {kvs : PyDict} {fs : FS} {root : String} {errs : List Violation}
    (h : vdfObj2 kvs fs root = Except.ok errs) :
    ∃ e4 e11 e12 e13,
      vlErrs2 kvs (pyGetD kvs "id" (Json.str "unknown")) = Except.ok e4 ∧
      olErrs2 kvs (pyGetD kvs "id" (Json.str "unknown")) = Except.ok e11 ∧
      gemErrs kvs (pyGetD kvs "id" (Json.str "unknown")) fs root = Except.ok e12 ∧
      avlErrs kvs (pyGetD kvs "id" (Json.str "unknown")) fs root = Except.ok e13 ∧
      errs = weekErrs kvs (pyGetD kvs "id" (Json.str "unknown")) ++
        numsErrs kvs (pyGetD kvs "id" (Json.str "unknown")) ++
        modelErrs kvs (pyGetD kvs "id" (Json.str "unknown")) ++ e4 ++
        dateErrs kvs (pyGetD kvs "id" (Json.str "unknown")) ++
        tikzErrs kvs (pyGetD kvs "id" (Json.str "unknown")) ++
        titleErrs kvs (pyGetD kvs "id" (Json.str "unknown")) ++
        bookErrs kvs (pyGetD kvs "id" (Json.str "unknown")) ++
        pmErrs kvs (pyGetD kvs "id" (Json.str "unknown")) ++
        srtErrs kvs (pyGetD kvs "id" (Json.str "unknown")) ++
        e11 ++ e12 ++ e13 := by
  simp only [vdfObj2] at h
  cases h4 : vlErrs2 kvs (pyGetD kvs "id" (Json.str "unknown")) with
  | error e => rw [h4] at h; cases h
  | ok e4 =>
    rw [h4] at h
    cases h11 : olErrs2 kvs (pyGetD kvs "id" (Json.str "unknown")) with
    | error e => rw [h11] at h; cases h
    | ok e11 =>
      rw [h11] at h
      cases h12 : gemErrs kvs (pyGetD kvs "id" (Json.str "unknown")) fs root with
      | error e => rw [h12] at h; cases h
      | ok e12 =>
        rw [h12] at h
        cases h13 : avlErrs kvs (pyGetD kvs "id" (Json.str "unknown")) fs root with
        | error e => rw [h13] at h; cases h
        | ok e13 =>
          rw [h13] at h
          simp only [Except.ok.injEq] at h
          exact ⟨e4, e11, e12, e13, rfl, rfl, rfl, rfl, h.symm⟩

/-- Claim C1 (code bug): the spec says the Record Validator never raises, but
the effective `validate_document_fields` raises `KeyError` when
`original_link` is present and non-null while the `is_video` key is absent
(line 466 reads `doc["is_video"]` with a plain index), and raises
`AttributeError` when `subtype` is `video_lecture` and `path` holds a
present, non-null, non-string value (line 397 calls `.endswith` on it). -/
theorem C1_record_validator_raises :
    validate_document_fields (Json.obj [("original_link", Json.str "mediaspace")])
      fs0 "root" = Except.error PyErr.keyErr ∧
    validate_document_fields (Json.obj
      [("subtype", Json.str "video_lecture"), ("path", Json.int 5)])
      fs0 "root" = Except.error PyErr.attributeErr :=
  ⟨rfl, rfl⟩

/-- Claim C2 (confirmed): whenever the parent directory of the declared
relative path can be listed, the path is classified Valid exactly when its
final segment appears verbatim (byte-for-byte, hence case-sensitively) in
that listing; in particular a segment differing only in letter case from
every entry is classified Invalid. -/
theorem C2_path_classification_exact (fs : FS) (root rel : String)
    (entries : List String)
    (h : fs.listdir (pathParent (joinPath root rel)) = some entries) :
    classifyPath fs root (Json.str rel) =
      Except.ok (entries.contains (pathName (joinPath root rel))) := by
  simp [classifyPath, h]

/-- Witness for C2: resolving `lecture1.pdf` against a directory containing
only `Lecture1.pdf` is classified Invalid. -/
theorem C2_path_classification_exact_witness :
    fsW.listdir (pathParent (joinPath "root" "lecture1.pdf")) = some ["Lecture1.pdf"] ∧
    classifyPath fsW "root" (Json.str "lecture1.pdf") = Except.ok false :=
  ⟨rfl, C2_path_classification_exact fsW "root" "lecture1.pdf" ["Lecture1.pdf"] rfl⟩

/-- Counterexample to claim C3: for a sub-record whose `srt_path` neither
ends in `.srt` nor names an existing file (the filesystem here is empty),
only the suffix violation is reported; the claimed additional existence
violation never appears, because the existence check sits in the `else`
branch of the suffix check. -/
theorem C3_srt_both_violations_counterexample :
    validate_associated_video_lecture vkvsC3 (Json.str "unknown") 0 fs0 "root" =
      Except.ok [("associated_video_lectures[0].srt_path",
        "must be null or end with \x27.srt\x27", Json.str "unknown")] := rfl

/-- Claim C3 (corrected): the suffix check and the existence check on a
present, non-null `srt_path` are not independent.  The violations reported
against that field are exactly: the suffix violation alone when the value
is not a string or does not end in `.srt` (the existence check is skipped),
and otherwise the existence violation exactly when the file is missing —
never both together. -/
theorem C3_srt_suffix_existence_dependent (vkvs : PyDict) (did : Json) (idx : Nat) (fs : FS)
    (root : String) (w : Json) (errs : List Violation)
    (hv : lookup vkvs "srt_path" = some w) (hnn : isNull w = false)
    (hres : validate_associated_video_lecture vkvs did idx fs root = Except.ok errs) :
    (isStrB w = false →
      fieldFilter (avlPfx idx ++ ".srt_path") errs =
        [(avlPfx idx ++ ".srt_path", "must be null or end with \x27.srt\x27", did)]) ∧
    (∀ s, w = Json.str s → strEndsWith s ".srt" = false →
      fieldFilter (avlPfx idx ++ ".srt_path") errs =
        [(avlPfx idx ++ ".srt_path", "must be null or end with \x27.srt\x27", did)]) ∧
    (∀ s, w = Json.str s → strEndsWith s ".srt" = true →
      fieldFilter (avlPfx idx ++ ".srt_path") errs =
        (if fs.isFile (joinPath root s) then []
         else [(avlPfx idx ++ ".srt_path", "file does not exist", did)])) := by
  obtain ⟨pe, hp, rfl⟩ := avl_decomp hres
  have ht : avlPfx idx ++ "." ++ "srt_path" = avlPfx idx ++ ".srt_path" :=
    dotAssoc (avlPfx idx) "srt_path" ".srt_path" rfl
  have h1 : fieldFilter (avlPfx idx ++ ".srt_path")
      (missingOf vkvs (avlPfx idx) did avl_required_fields) = [] := by
    apply missingOf_filter_none
    intro f hf hk
    fin_cases hf
    · rw [← ht]; apply dotFieldNe; decide
    · rw [← ht]; apply dotFieldNe; decide
    · rw [← ht]; apply dotFieldNe; decide
    · rw [← ht]; apply dotFieldNe; decide
    · rw [hasKey_true_of_lookup hv] at hk; cases hk
    · rw [← ht]; apply dotFieldNe; decide
  have h2 : fieldFilter (avlPfx idx ++ ".srt_path")
      (avlTitleErrs vkvs (avlPfx idx) did) = [] :=
    fieldFilter_nil_of_ne (fun v hv2 => by
      rw [avlTitleErrs_field hv2]
      exact strNeAppend (avlPfx idx) (by decide))
  have h3 : fieldFilter (avlPfx idx ++ ".srt_path")
      (avlLinkErrs vkvs (avlPfx idx) did) = [] :=
    fieldFilter_nil_of_ne (fun v hv2 => by
      rw [avlLinkErrs_field hv2]
      exact strNeAppend (avlPfx idx) (by decide))
  have h5 : fieldFilter (avlPfx idx ++ ".srt_path") pe = [] :=
    fieldFilter_nil_of_ne (fun v hv2 => by
      rw [avlPdfErrs_field hp hv2]
      exact strNeAppend (avlPfx idx) (by decide))
  have hkey : fieldFilter (avlPfx idx ++ ".srt_path")
      (missingOf vkvs (avlPfx idx) did avl_required_fields ++
        avlTitleErrs vkvs (avlPfx idx) did ++ avlLinkErrs vkvs (avlPfx idx) did ++
        avlSrtErrs vkvs (avlPfx idx) did fs root ++ pe) =
      fieldFilter (avlPfx idx ++ ".srt_path") (avlSrtErrs vkvs (avlPfx idx) did fs root) := by
    rw [fieldFilter_append, fieldFilter_append, fieldFilter_append, fieldFilter_append,
        h1, h2, h3, h5]
    simp
  refine ⟨?_, ?_, ?_⟩
  · intro hw
    rw [hkey, avlSrtErrs, hv]
    cases w with
    | null => simp [isNull] at hnn
    | str s => simp [isStrB] at hw
    | bool b => simp [isNull, fieldFilter]
    | int n => simp [isNull, fieldFilter]
    | arr xs => simp [isNull, fieldFilter]
    | obj kvs => simp [isNull, fieldFilter]
  · intro s hw hs
    subst hw
    rw [hkey, avlSrtErrs, hv]
    simp [isNull, hs, fieldFilter]
  · intro s hw hs
    subst hw
    rw [hkey, avlSrtErrs, hv]
    by_cases hf2 : fs.isFile (joinPath root s)
    · simp [isNull, hs, hf2, fieldFilter]
    · simp [isNull, hs, hf2, fieldFilter]

/-- Witness for C3: a sub-record whose `srt_path` is `a.srt` on an empty
filesystem yields exactly the existence violation for that field. -/
theorem C3_srt_suffix_existence_dependent_witness :
    fieldFilter (avlPfx 0 ++ ".srt_path")
      [(avlPfx 0 ++ ".srt_path", "file does not exist", Json.str "unknown")] =
      [(avlPfx 0 ++ ".srt_path", "file does not exist", Json.str "unknown")] :=
  (C3_srt_suffix_existence_dependent vkvsC3w (Json.str "unknown") 0 fs0 "root"
    (Json.str "a.srt")
    [(avlPfx 0 ++ ".srt_path", "file does not exist", Json.str "unknown")]
    rfl rfl rfl).2.2 "a.srt" rfl rfl

/-- Counterexample to claim C4: with a filesystem on which no directory can
be listed, a metadata file declaring the path `content/a.pdf` makes
`validate_json_file` abort the run (`sys.exit(1)`, modelled as
`Except.error ()`) instead of recording an Invalid classification. -/
theorem C4_missing_parent_counterexample :
    validate_json_file fs0 "root" (ReadResult.json (Json.obj
      [("documents", Json.arr [Json.obj [("path", Json.str "content/a.pdf")]])])) =
      Except.error () := rfl

/-- Claim C4 (corrected): when the parent directory of a declared path does
not exist, `os.listdir` raises `FileNotFoundError`, which the catch-all
`except Exception` handler of `validate_json_file` converts into
`sys.exit(1)`: the whole run aborts and the path is not recorded as
Invalid. -/
theorem C4_missing_parent_aborts_run (fs : FS) (root p : String)
    (h : fs.listdir (pathParent (joinPath root p)) = none) :
    validate_json_file fs root (ReadResult.json (Json.obj
      [("documents", Json.arr [Json.obj [("path", Json.str p)]])])) = Except.error () := by
  have hc : classifyPath fs root (Json.str p) = Except.error PyErr.fileNotFoundErr := by
    simp [classifyPath, h]
  simp [validate_json_file,
    show pyContains (Json.obj [("documents", Json.arr [Json.obj [("path", Json.str p)]])]) "documents"
      = Except.ok true from rfl,
    show pyIndex (Json.obj [("documents", Json.arr [Json.obj [("path", Json.str p)]])]) "documents"
      = Except.ok (Json.arr [Json.obj [("path", Json.str p)]]) from rfl,
    pyIterate, docsLoop,
    show validate_document_fields (Json.obj [("path", Json.str p)]) fs root = Except.ok [] from rfl,
    show extract_paths_from_document (Json.obj [("path", Json.str p)])
      = Except.ok [("path", Json.str p, Json.str "unknown")] from rfl,
    classifyLoop, hc]

/-- Witness for C4: the abort observed on the empty filesystem. -/
theorem C4_missing_parent_aborts_run_witness :
    fs0.listdir (pathParent (joinPath "root" "content/b.pdf")) = none ∧
    validate_json_file fs0 "root" (ReadResult.json (Json.obj
      [("documents", Json.arr [Json.obj [("path", Json.str "content/b.pdf")]])])) =
      Except.error () :=
  ⟨rfl, C4_missing_parent_aborts_run fs0 "root" "content/b.pdf" rfl⟩

/-- Claim C5 (confirmed): a segmented-video-description file with all five
top-level keys whose `video_segments` elements are mappings with all
thirteen required keys validates as Valid, and removing any single required
key from any single segment flips the whole file to Invalid. -/
theorem C5_gemini_structure_round_trip :
    (∀ kvs segs, topHasKeys kvs = true →
      lookup kvs "video_segments" = some (Json.arr segs) →
      (∀ s ∈ segs, segHasAllKeys s = true) →
      validate_gemini_json_structure (ReadResult.json (Json.obj kvs)) = true) ∧
    (∀ kvs pre skvs post f, topHasKeys kvs = true →
      lookup kvs "video_segments" = some (Json.arr (pre ++ Json.obj skvs :: post)) →
      (∀ s ∈ pre, segHasAllKeys s = true) →
      f ∈ segment_required_fields →
      validate_gemini_json_structure (ReadResult.json (Json.obj
        (setKey kvs "video_segments"
          (Json.arr (pre ++ Json.obj (eraseKey skvs f) :: post))))) = false) := by
  constructor
  · intro kvs segs h5 hvs hsegs
    have hG : geminiStructureCheck (Json.obj kvs) = Except.ok true := by
      rw [geminiStructureCheck, checkFieldsIn_obj]
      rw [show gemini_required_fields.all (fun f => hasKey kvs f) = true from h5]
      simp only [pyIndex, hvs]
      exact checkSegments_all_good segs hsegs
    rw [validate_gemini_json_structure, hG]
  · intro kvs pre skvs post f h5 hvs hpre hf
    have h5b : topHasKeys (setKey kvs "video_segments"
        (Json.arr (pre ++ Json.obj (eraseKey skvs f) :: post))) = true := by
      unfold topHasKeys at h5 ⊢
      simpa [hasKey_setKey] using h5
    have hvs2 : lookup (setKey kvs "video_segments"
        (Json.arr (pre ++ Json.obj (eraseKey skvs f) :: post))) "video_segments" =
        some (Json.arr (pre ++ Json.obj (eraseKey skvs f) :: post)) :=
      lookup_setKey_self _ _ _ (hasKey_true_of_lookup hvs)
    have hbadseg : segment_required_fields.all (fun g => hasKey (eraseKey skvs f) g) = false := by
      apply Bool.eq_false_iff.mpr
      intro hall
      have hx := List.all_eq_true.mp hall f hf
      rw [hasKey_eraseKey_self] at hx
      cases hx
    have hG : geminiStructureCheck (Json.obj (setKey kvs "video_segments"
        (Json.arr (pre ++ Json.obj (eraseKey skvs f) :: post)))) = Except.ok false := by
      rw [geminiStructureCheck, checkFieldsIn_obj]
      rw [show gemini_required_fields.all (fun g => hasKey (setKey kvs "video_segments"
        (Json.arr (pre ++ Json.obj (eraseKey skvs f) :: post))) g) = true from h5b]
      simp only [pyIndex, hvs2]
      exact checkSegments_bad pre post _ hpre hbadseg
    rw [validate_gemini_json_structure, hG]

/-- Witness for C5: a concrete wellformed file is Valid and becomes Invalid
after erasing `start_time` from its only segment. -/
theorem C5_gemini_structure_round_trip_witness :
    validate_gemini_json_structure (ReadResult.json (Json.obj goodGemini)) = true ∧
    validate_gemini_json_structure (ReadResult.json (Json.obj
      (setKey goodGemini "video_segments"
        (Json.arr ([] ++ Json.obj (eraseKey goodSeg "start_time") :: []))))) = false :=
  ⟨C5_gemini_structure_round_trip.1 goodGemini [Json.obj goodSeg] rfl rfl
    (by intro s hs; rw [List.mem_singleton] at hs; subst hs; rfl),
   C5_gemini_structure_round_trip.2 goodGemini [] goodSeg [] "start_time" rfl rfl
    (by intro s hs; cases hs) (by decide)⟩

/-- Claim C6 (confirmed): both structural payload validators classify a
missing or unreadable file, malformed JSON, and JSON of the wrong top-level
type (a non-mapping for the Gemini check, a non-list for the page-timestamp
check) as Invalid instead of propagating an exception. -/
theorem C6_structural_validators_total :
    validate_gemini_json_structure ReadResult.noFile = false ∧
    validate_gemini_json_structure ReadResult.badJson = false ∧
    (∀ d, isObjB d = false → validate_gemini_json_structure (ReadResult.json d) = false) ∧
    validate_pdf_timestamp_json_structure ReadResult.noFile = false ∧
    validate_pdf_timestamp_json_structure ReadResult.badJson = false ∧
    (∀ d, isArrB d = false → validate_pdf_timestamp_json_structure (ReadResult.json d) = false) := by
  refine ⟨rfl, rfl, ?_, rfl, rfl, ?_⟩
  · intro d hd
    rw [validate_gemini_json_structure, geminiStructureCheck]
    cases hc : checkFieldsIn d gemini_required_fields with
    | error e => rfl
    | ok b =>
      cases b with
      | false => rfl
      | true => rw [pyIndex_nonObj hd]
  · intro d hd
    cases d <;> simp_all [validate_pdf_timestamp_json_structure, isArrB]

/-- Witness for C6: an integer top level is Invalid for the Gemini check and
a mapping top level is Invalid for the page-timestamp check. -/
theorem C6_structural_validators_total_witness :
    validate_gemini_json_structure (ReadResult.json (Json.int 3)) = false ∧
    validate_pdf_timestamp_json_structure (ReadResult.json (Json.obj [])) = false :=
  ⟨C6_structural_validators_total.2.2.1 (Json.int 3) rfl,
   C6_structural_validators_total.2.2.2.2.2 (Json.obj []) rfl⟩

/-- Claim C7 (confirmed): for a present, non-null string
`pdf_page_video_ts_path`, the violations reported against that field are
exactly one existence violation when the file is missing (so the shape
check is skipped), and otherwise exactly a shape violation when the file
fails the page-timestamp structural check. -/
theorem C7_pdf_ts_existence_then_shape (vkvs : PyDict) (did : Json) (idx : Nat) (fs : FS) (root p : String)
    (errs : List Violation)
    (hv : lookup vkvs "pdf_page_video_ts_path" = some (Json.str p))
    (hres : validate_associated_video_lecture vkvs did idx fs root = Except.ok errs) :
    fieldFilter (avlPfx idx ++ ".pdf_page_video_ts_path") errs =
      (if fs.isFile (joinPath root p) then
        if validate_pdf_timestamp_json_structure (fs.read (joinPath root p)) then []
        else [(avlPfx idx ++ ".pdf_page_video_ts_path", "invalid JSON structure", did)]
       else [(avlPfx idx ++ ".pdf_page_video_ts_path", "file does not exist", did)]) := by
  obtain ⟨pe, hp, rfl⟩ := avl_decomp hres
  have ht : avlPfx idx ++ "." ++ "pdf_page_video_ts_path" =
      avlPfx idx ++ ".pdf_page_video_ts_path" :=
    dotAssoc (avlPfx idx) "pdf_page_video_ts_path" ".pdf_page_video_ts_path" rfl
  have hpe : pe =
      (if fs.isFile (joinPath root p) then
        if validate_pdf_timestamp_json_structure (fs.read (joinPath root p)) then []
        else [(avlPfx idx ++ ".pdf_page_video_ts_path", "invalid JSON structure", did)]
       else [(avlPfx idx ++ ".pdf_page_video_ts_path", "file does not exist", did)]) := by
    rw [avlPdfErrs, hv] at hp
    simp only [isNull, Bool.false_eq_true, if_false, Except.ok.injEq] at hp
    exact hp.symm
  have h1 : fieldFilter (avlPfx idx ++ ".pdf_page_video_ts_path")
      (missingOf vkvs (avlPfx idx) did avl_required_fields) = [] := by
    apply missingOf_filter_none
    intro f hf hk
    fin_cases hf
    · rw [← ht]; apply dotFieldNe; decide
    · rw [← ht]; apply dotFieldNe; decide
    · rw [← ht]; apply dotFieldNe; decide
    · rw [← ht]; apply dotFieldNe; decide
    · rw [← ht]; apply dotFieldNe; decide
    · rw [hasKey_true_of_lookup hv] at hk; cases hk
  have h2 : fieldFilter (avlPfx idx ++ ".pdf_page_video_ts_path")
      (avlTitleErrs vkvs (avlPfx idx) did) = [] :=
    fieldFilter_nil_of_ne (fun v hv2 => by
      rw [avlTitleErrs_field hv2]
      exact strNeAppend (avlPfx idx) (by decide))
  have h3 : fieldFilter (avlPfx idx ++ ".pdf_page_video_ts_path")
      (avlLinkErrs vkvs (avlPfx idx) did) = [] :=
    fieldFilter_nil_of_ne (fun v hv2 => by
      rw [avlLinkErrs_field hv2]
      exact strNeAppend (avlPfx idx) (by decide))
  have h4 : fieldFilter (avlPfx idx ++ ".pdf_page_video_ts_path")
      (avlSrtErrs vkvs (avlPfx idx) did fs root) = [] :=
    fieldFilter_nil_of_ne (fun v hv2 => by
      rw [avlSrtErrs_field hv2]
      exact strNeAppend (avlPfx idx) (by decide))
  have h5 : fieldFilter (avlPfx idx ++ ".pdf_page_video_ts_path") pe = pe := by
    apply fieldFilter_self
    intro v hv2
    exact avlPdfErrs_field hp hv2
  rw [fieldFilter_append, fieldFilter_append, fieldFilter_append, fieldFilter_append,
      h1, h2, h3, h4, h5, hpe]
  rfl

/-- Witness for C7: a sub-record pointing `pdf_page_video_ts_path` at a
missing file yields exactly the existence violation. -/
theorem C7_pdf_ts_existence_then_shape_witness :
    fieldFilter (avlPfx 0 ++ ".pdf_page_video_ts_path")
      [(avlPfx 0 ++ ".pdf_page_video_ts_path", "file does not exist", Json.str "unknown")] =
      [(avlPfx 0 ++ ".pdf_page_video_ts_path", "file does not exist", Json.str "unknown")] :=
  C7_pdf_ts_existence_then_shape vkvsC7 (Json.str "unknown") 0 fs0 "root" "ts.json"
    [(avlPfx 0 ++ ".pdf_page_video_ts_path", "file does not exist", Json.str "unknown")]
    rfl rfl

/-- Claim C8 (confirmed): for a sub-record in which the `srt_path` key is
entirely absent, the violations reported against that field are exactly the
single required-field-missing violation; no suffix or existence violation
is produced for it. -/
theorem C8_missing_srt_key_one_violation (vkvs : PyDict) (did : Json) (idx : Nat) (fs : FS) (root : String)
    (errs : List Violation)
    (habs : hasKey vkvs "srt_path" = false)
    (hres : validate_associated_video_lecture vkvs did idx fs root = Except.ok errs) :
    fieldFilter (avlPfx idx ++ ".srt_path") errs =
      [(avlPfx idx ++ ".srt_path", "required field missing", did)] := by
  obtain ⟨pe, hp, rfl⟩ := avl_decomp hres
  have ht : avlPfx idx ++ "." ++ "srt_path" = avlPfx idx ++ ".srt_path" :=
    dotAssoc (avlPfx idx) "srt_path" ".srt_path" rfl
  have h1 : fieldFilter (avlPfx idx ++ ".srt_path")
      (missingOf vkvs (avlPfx idx) did avl_required_fields) =
      [(avlPfx idx ++ ".srt_path", "required field missing", did)] := by
    rw [show avl_required_fields =
        ["title", "is_gemini_processed_video", "original_link", "path"] ++
          "srt_path" :: ["pdf_page_video_ts_path"] from rfl]
    apply missingOf_filter_single _ _ _ ht habs
    · intro f hf hk
      rw [← ht]
      apply dotFieldNe
      fin_cases hf <;> decide
    · intro f hf hk
      rw [← ht]
      apply dotFieldNe
      fin_cases hf
      decide
  have h2 : fieldFilter (avlPfx idx ++ ".srt_path") (avlTitleErrs vkvs (avlPfx idx) did) = [] :=
    fieldFilter_nil_of_ne (fun v hv => by
      rw [avlTitleErrs_field hv]
      exact strNeAppend (avlPfx idx) (by decide))
  have h3 : fieldFilter (avlPfx idx ++ ".srt_path") (avlLinkErrs vkvs (avlPfx idx) did) = [] :=
    fieldFilter_nil_of_ne (fun v hv => by
      rw [avlLinkErrs_field hv]
      exact strNeAppend (avlPfx idx) (by decide))
  have h4 : avlSrtErrs vkvs (avlPfx idx) did fs root = [] := by
    unfold avlSrtErrs
    rw [lookup_eq_none habs]
  have h5 : fieldFilter (avlPfx idx ++ ".srt_path") pe = [] :=
    fieldFilter_nil_of_ne (fun v hv => by
      rw [avlPdfErrs_field hp hv]
      exact strNeAppend (avlPfx idx) (by decide))
  rw [fieldFilter_append, fieldFilter_append, fieldFilter_append, fieldFilter_append,
      h1, h2, h3, h4, h5]
  simp [fieldFilter]

/-- Witness for C8: a sub-record without the `srt_path` key yields exactly
the missing-field violation on that field. -/
theorem C8_missing_srt_key_one_violation_witness :
    fieldFilter (avlPfx 0 ++ ".srt_path")
      [(avlPfx 0 ++ "." ++ "srt_path", "required field missing", Json.str "unknown")] =
      [(avlPfx 0 ++ ".srt_path", "required field missing", Json.str "unknown")] :=
  C8_missing_srt_key_one_violation vkvsC8 (Json.str "unknown") 0 fs0 "root"
    [(avlPfx 0 ++ "." ++ "srt_path", "required field missing", Json.str "unknown")]
    rfl rfl

/-- Claim C9 (confirmed): a document whose `week` field holds a boolean
produces no violation on `week`, because the `isinstance(..., int)` test
accepts Python booleans. -/
theorem C9_week_accepts_booleans (kvs : PyDict) (fs : FS) (root : String) (b : Bool)
    (errs : List Violation)
    (hweek : lookup kvs "week" = some (Json.bool b))
    (hres : validate_document_fields (Json.obj kvs) fs root = Except.ok errs) :
    fieldFilter "week" errs = [] := by
  have h0 : vdfObj2 kvs fs root = Except.ok errs := hres
  obtain ⟨e4, e11, e12, e13, h4, h11, h12, h13, rfl⟩ := vdf2_decomp h0
  apply fieldFilter_nil_of_ne
  intro v hv
  simp only [List.mem_append] at hv
  rcases hv with ((((((((((((hv | hv) | hv) | hv) | hv) | hv) | hv) | hv) | hv) | hv) | hv) | hv) | hv)
  · rw [weekErrs_bool hweek] at hv
    cases hv
  · rcases List.mem_append.mp hv with hv | hv
    · rw [numErrsFor_field hv]; decide
    · rw [numErrsFor_field hv]; decide
  · rw [modelErrs_field hv]; decide
  · rcases vlErrs2_fields h4 hv with hf | hf <;> rw [hf] <;> decide
  · rcases List.mem_append.mp hv with hv | hv
    · rw [dateErrsFor_field hv]; decide
    · rw [dateErrsFor_field hv]; decide
  · rw [tikzErrs_field hv]; decide
  · rw [titleErrs_field hv]; decide
  · unfold bookErrs at hv
    split at hv
    · rcases List.mem_append.mp hv with hv | hv
      · rw [bookErrsFor_field hv]; decide
      · rw [bookErrsFor_field hv]; decide
    · cases hv
  · rw [pmErrs_field hv]; decide
  · rw [srtErrs_field hv]; decide
  · rw [olErrs2_fields h11 hv]; decide
  · rcases gemErrs_fields h12 hv with hf | hf <;> rw [hf] <;> decide
  · rcases avlErrs_fields h13 hv with hf | ⟨j, sfx, hf⟩ | ⟨j, hf⟩
    · rw [hf]; decide
    · rw [hf]; exact avlPfx_append_ne_week j sfx
    · rw [hf]; exact avlPfx_ne_week j

/-- Witness for C9: a document with `week = true` (and a `tikz` violation
to show the run is not vacuous) reports nothing against `week`. -/
theorem C9_week_accepts_booleans_witness :
    fieldFilter "week"
      [("tikz", "must be false or null, got: True", Json.str "unknown")] = [] :=
  C9_week_accepts_booleans [("week", Json.bool true), ("tikz", Json.bool true)] fs0 "r" true
    [("tikz", "must be false or null, got: True", Json.str "unknown")] rfl rfl

/-- Claim C10 (confirmed): the two textual definitions of
`validate_document_fields` are not behaviorally equal.  On a document with
subtype `video_lecture`, `is_qa` true and `is_video` present and false, the
first (shadowed) definition reports nothing, while the second definition —
the one every caller gets, since the later module-level binding wins —
reports exactly one `is_video` violation. -/
theorem C10_shadowed_definitions_differ :
    validate_document_fields_v1 (Json.obj [("subtype", Json.str "video_lecture"),
      ("is_qa", Json.bool true), ("is_video", Json.bool false)]) fs0 "r" =
      Except.ok [] ∧
    validate_document_fields (Json.obj [("subtype", Json.str "video_lecture"),
      ("is_qa", Json.bool true), ("is_video", Json.bool false)]) fs0 "r" =
      Except.ok [("is_video", "must be true when subtype is \x27video_lecture\x27",
        Json.str "unknown")] ∧
    validate_document_fields_v1 (Json.obj [("subtype", Json.str "video_lecture"),
      ("is_qa", Json.bool true), ("is_video", Json.bool false)]) fs0 "r" ≠
    validate_document_fields (Json.obj [("subtype", Json.str "video_lecture"),
      ("is_qa", Json.bool true), ("is_video", Json.bool false)]) fs0 "r" :=
  ⟨rfl, rfl, by
    intro h
    have h2 : (Except.ok [] : Except PyErr (List Violation)) =
        Except.ok [("is_video", "must be true when subtype is \x27video_lecture\x27",
          Json.str "unknown")] := h
    simp at h2⟩
